import Mathlib

/-
  Shallow embedding of grub-core/lib/ieee1275/tcg2.c (ieee1275 TPM2 transport).

  The process-wide mutable state (the cached ihandle, the interface version,
  the static init_success flag of grub_ieee1275_tpm_init and the two static
  error_displayed flags of grub_tcg2_get_max_output_size and
  grub_tcg2_submit_command) is made an explicit record threaded through the
  operations.  The external collaborators (grub_ieee1275_open,
  grub_ieee1275_finddevice, grub_ieee1275_get_property and the
  IEEE1275_CALL_ENTRY_FN dispatcher) are modelled as oracles supplied per
  call; each operation additionally reports how many open attempts and
  dispatcher invocations it performed, so that at-most-once properties are
  observable.
-/

namespace Tcg2

/-- The grub_err_t values used by tcg2.c. -/
inductive grub_err_t where
  | GRUB_ERR_NONE
  | GRUB_ERR_UNKNOWN_DEVICE
  | GRUB_ERR_BAD_DEVICE
  | GRUB_ERR_INVALID_COMMAND
  | GRUB_ERR_BAD_ARGUMENT
deriving DecidableEq, Repr

open grub_err_t

/-- IEEE1275_IHANDLE_INVALID ((grub_ieee1275_ihandle_t) 0). -/
def IEEE1275_IHANDLE_INVALID : Nat := 0

/-- The process-wide mutable state of tcg2.c: the two globals
    grub_ieee1275_tpm_ihandle and grub_ieee1275_tpm_version, the static
    init_success of grub_ieee1275_tpm_init, and the static error_displayed
    counters of grub_tcg2_get_max_output_size (size_error_displayed) and
    grub_tcg2_submit_command (submit_error_displayed). -/
structure TpmState where
  grub_ieee1275_tpm_ihandle : Nat
  grub_ieee1275_tpm_version : Nat
  init_success : Nat
  size_error_displayed : Nat
  submit_error_displayed : Nat
deriving DecidableEq, Repr

/-- All globals and statics are zero-initialized at boot. -/
def initial_state : TpmState :=
  { grub_ieee1275_tpm_ihandle := 0
    grub_ieee1275_tpm_version := 0
    init_success := 0
    size_error_displayed := 0
    submit_error_displayed := 0 }

/-- The device-discovery collaborators used by grub_ieee1275_tpm_init:
    grub_ieee1275_open on "/vdevice/vtpm" (none models a negative return,
    some h a successful open yielding ihandle h), grub_ieee1275_finddevice
    on "/vdevice/vtpm" (none models failure, some p a phandle), and
    grub_ieee1275_get_property reading the "compatible" property of a
    phandle into a buffer of the given size (none models failure, some str
    the string left in the buffer). -/
structure InitEnv where
  open_result : Option Nat
  finddevice_result : Option Nat
  get_property : Nat → Nat → Option String

/-- tpm_get_tpm_version: sets grub_ieee1275_tpm_version to 2 when
    finddevice succeeds, the property read of "compatible" into the
    20-byte buffer succeeds, and grub_strcmp against "IBM,vtpm20" returns
    0; otherwise leaves the state unchanged. -/
def tpm_get_tpm_version (env : InitEnv) (s : TpmState) : TpmState :=
  match env.finddevice_result with
  | none => s
  | some vtpm =>
    match env.get_property vtpm 20 with
    | none => s
    | some buffer =>
      if buffer = "IBM,vtpm20" then
        { s with grub_ieee1275_tpm_version := 2 }
      else
        s

/-- Result of one call to grub_ieee1275_tpm_init: the returned grub_err_t,
    the state afterwards, and how many times grub_ieee1275_open was
    invoked during the call (0 or 1). -/
structure InitResult where
  err : grub_err_t
  state : TpmState
  open_attempts : Nat
deriving DecidableEq, Repr

/-- grub_ieee1275_tpm_init: if init_success is still 0, attempt to open
    "/vdevice/vtpm"; on failure set the ihandle to the invalid sentinel
    and return GRUB_ERR_UNKNOWN_DEVICE (init_success stays 0); on success
    store the ihandle, set init_success to 1, run tpm_get_tpm_version and
    return GRUB_ERR_NONE.  If init_success is nonzero, return
    GRUB_ERR_NONE without touching anything. -/
def grub_ieee1275_tpm_init (env : InitEnv) (s : TpmState) : InitResult :=
  if s.init_success = 0 then
    match env.open_result with
    | none =>
      { err := GRUB_ERR_UNKNOWN_DEVICE
        state := { s with grub_ieee1275_tpm_ihandle := IEEE1275_IHANDLE_INVALID }
        open_attempts := 1 }
    | some ihandle =>
      let s1 := { s with grub_ieee1275_tpm_ihandle := ihandle, init_success := 1 }
      { err := GRUB_ERR_NONE
        state := tpm_get_tpm_version env s1
        open_attempts := 1 }
  else
    { err := GRUB_ERR_NONE, state := s, open_attempts := 0 }

/-- Behaviour of one IEEE1275_CALL_ENTRY_FN dispatch of the
    "get-maximum-cmd-size" call frame: the value the entry function
    returns, and the values left in the catch_result and size output
    cells. -/
structure MaxSizeDispatch where
  entry_ret : Int
  catch_result : Nat
  size : Nat
deriving DecidableEq, Repr

/-- Result of one call to grub_tcg2_get_max_output_size: the returned
    grub_err_t, the contents of the caller's size out-parameter after the
    call, the state afterwards, the number of open attempts, the number of
    dispatcher invocations (0 or 1), and whether the one-time
    "Firmware is likely too old" warning was emitted by this call. -/
structure MaxSizeResult where
  err : grub_err_t
  size : Nat
  state : TpmState
  open_attempts : Nat
  dispatch_count : Nat
  warned : Bool
deriving DecidableEq, Repr

/-- grub_tcg2_get_max_output_size: run grub_ieee1275_tpm_init and
    propagate its error; dispatch the "get-maximum-cmd-size" call frame;
    if the entry function returns -1, fail with GRUB_ERR_INVALID_COMMAND;
    if the catch_result cell is nonzero, emit the one-time warning as
    GRUB_ERR_BAD_DEVICE on the first occurrence (incrementing
    size_error_displayed) and fail with GRUB_ERR_INVALID_COMMAND on later
    occurrences; otherwise store the size cell verbatim into the caller's
    out-parameter and return GRUB_ERR_NONE. -/
def grub_tcg2_get_max_output_size (env : InitEnv) (disp : MaxSizeDispatch)
    (size : Nat) (s : TpmState) : MaxSizeResult :=
  let r := grub_ieee1275_tpm_init env s
  if r.err ≠ GRUB_ERR_NONE then
    { err := r.err, size := size, state := r.state
      open_attempts := r.open_attempts, dispatch_count := 0, warned := false }
  else if disp.entry_ret = -1 then
    { err := GRUB_ERR_INVALID_COMMAND, size := size, state := r.state
      open_attempts := r.open_attempts, dispatch_count := 1, warned := false }
  else if disp.catch_result ≠ 0 then
    if r.state.size_error_displayed = 0 then
      { err := GRUB_ERR_BAD_DEVICE, size := size
        state := { r.state with size_error_displayed := r.state.size_error_displayed + 1 }
        open_attempts := r.open_attempts, dispatch_count := 1, warned := true }
    else
      { err := GRUB_ERR_INVALID_COMMAND, size := size, state := r.state
        open_attempts := r.open_attempts, dispatch_count := 1, warned := false }
  else
    { err := GRUB_ERR_NONE, size := disp.size, state := r.state
      open_attempts := r.open_attempts, dispatch_count := 1, warned := false }

/-- grub_memcpy (dest, src, n): the dest buffer after copying the first n
    bytes of src over the first n bytes of dest. -/
def grub_memcpy (dest src : List Nat) (n : Nat) : List Nat :=
  src.take n ++ dest.drop n

/-- Behaviour of one IEEE1275_CALL_ENTRY_FN dispatch of the
    "pass-through-to-tpm" call frame: the value the entry function
    returns, the values left in the catch_result and resp_size output
    cells, and the contents of the caller's input buffer after the call
    (the firmware writes its response into the same region it read the
    command from). -/
structure SubmitDispatch where
  entry_ret : Int
  catch_result : Nat
  resp_size : Nat
  buf_after : List Nat
deriving DecidableEq, Repr

/-- Result of one call to grub_tcg2_submit_command: the returned
    grub_err_t, the input and output buffers after the call (none models a
    NULL pointer), the state afterwards, the number of open attempts, the
    number of dispatcher invocations (0 or 1), and whether the one-time
    "Firmware is likely too old" warning was emitted by this call. -/
structure SubmitResult where
  err : grub_err_t
  input : Option (List Nat)
  output : Option (List Nat)
  state : TpmState
  open_attempts : Nat
  dispatch_count : Nat
  warned : Bool
deriving DecidableEq, Repr

/-- grub_tcg2_submit_command: reject a zero input_size, NULL input, zero
    output_size or NULL output with GRUB_ERR_BAD_ARGUMENT before anything
    else; run grub_ieee1275_tpm_init and propagate its error; dispatch the
    "pass-through-to-tpm" call frame; if the entry function returns -1,
    fail with GRUB_ERR_INVALID_COMMAND; if the catch_result cell is
    nonzero, apply the same one-time-warning policy as the size query on
    its own submit_error_displayed counter; otherwise grub_memcpy
    resp_size bytes from the input buffer into the output buffer and
    return GRUB_ERR_NONE. -/
def grub_tcg2_submit_command (env : InitEnv) (disp : SubmitDispatch)
    (input_size : Nat) (input : Option (List Nat))
    (output_size : Nat) (output : Option (List Nat))
    (s : TpmState) : SubmitResult :=
  if input_size = 0 ∨ input = none ∨ output_size = 0 ∨ output = none then
    { err := GRUB_ERR_BAD_ARGUMENT, input := input, output := output, state := s
      open_attempts := 0, dispatch_count := 0, warned := false }
  else
    let r := grub_ieee1275_tpm_init env s
    if r.err ≠ GRUB_ERR_NONE then
      { err := r.err, input := input, output := output, state := r.state
        open_attempts := r.open_attempts, dispatch_count := 0, warned := false }
    else if disp.entry_ret = -1 then
      { err := GRUB_ERR_INVALID_COMMAND, input := some disp.buf_after
        output := output, state := r.state
        open_attempts := r.open_attempts, dispatch_count := 1, warned := false }
    else if disp.catch_result ≠ 0 then
      if r.state.submit_error_displayed = 0 then
        { err := GRUB_ERR_BAD_DEVICE, input := some disp.buf_after
          output := output
          state := { r.state with
                     submit_error_displayed := r.state.submit_error_displayed + 1 }
          open_attempts := r.open_attempts, dispatch_count := 1, warned := true }
      else
        { err := GRUB_ERR_INVALID_COMMAND, input := some disp.buf_after
          output := output, state := r.state
          open_attempts := r.open_attempts, dispatch_count := 1, warned := false }
    else
      { err := GRUB_ERR_NONE, input := some disp.buf_after
        output := some (grub_memcpy (output.getD []) disp.buf_after disp.resp_size)
        state := r.state
        open_attempts := r.open_attempts, dispatch_count := 1, warned := false }

/-- A sequence of grub_tcg2_get_max_output_size calls, one per dispatch
    behaviour in the list, threading the state; returns the per-call
    results and the final state. -/
def run_max_calls (env : InitEnv) (size : Nat) :
    TpmState → List MaxSizeDispatch → List MaxSizeResult × TpmState
  | s, [] => ([], s)
  | s, d :: ds =>
    let r := grub_tcg2_get_max_output_size env d size s
    let p := run_max_calls env size r.state ds
    (r :: p.1, p.2)

/-- A sequence of grub_tcg2_submit_command calls, one per dispatch
    behaviour in the list, threading the state; each call is given fresh
    buffers with the same initial contents.  Returns the per-call results
    and the final state. -/
def run_submit_calls (env : InitEnv) (input_size : Nat) (input : Option (List Nat))
    (output_size : Nat) (output : Option (List Nat)) :
    TpmState → List SubmitDispatch → List SubmitResult × TpmState
  | s, [] => ([], s)
  | s, d :: ds =>
    let r := grub_tcg2_submit_command env d input_size input output_size output s
    let p := run_submit_calls env input_size input output_size output r.state ds
    (r :: p.1, p.2)

/-- A boot environment in which opening "/vdevice/vtpm" fails and no
    device node or property is available. -/
def env_open_fails : InitEnv :=
  { open_result := none, finddevice_result := none, get_property := fun _ _ => none }

/-- A boot environment in which opening "/vdevice/vtpm" succeeds with
    ihandle 5 but version detection finds nothing. -/
def env_open_ok : InitEnv :=
  { open_result := some 5, finddevice_result := none, get_property := fun _ _ => none }

/-- A boot environment in which the open succeeds with ihandle 5, the node
    resolves to phandle 7, and the "compatible" property reads back
    "IBM,vtpm20". -/
def env_vtpm20 : InitEnv :=
  { open_result := some 5
    finddevice_result := some 7
    get_property := fun _ _ => some "IBM,vtpm20" }

/-- A "get-maximum-cmd-size" dispatch in which the entry function succeeds
    but the method sets its catch/failure flag. -/
def dm_catch_fail : MaxSizeDispatch :=
  { entry_ret := 0, catch_result := 1, size := 0 }

/-- A "pass-through-to-tpm" dispatch in which the entry function succeeds
    but the method sets its catch/failure flag. -/
def dp_catch_fail : SubmitDispatch :=
  { entry_ret := 0, catch_result := 1, resp_size := 0, buf_after := [1] }

/-- A "pass-through-to-tpm" dispatch in which the entry function and the
    method succeed, echoing the 3-byte command [1, 2, 3] back with a
    2-byte response. -/
def dp_entry_ok : SubmitDispatch :=
  { entry_ret := 0, catch_result := 0, resp_size := 2, buf_after := [1, 2, 3] }

/-- A state in which initialization has already succeeded (ihandle 5,
    legacy version) and no warning has been displayed yet. -/
def ready_state : TpmState :=
  { grub_ieee1275_tpm_ihandle := 5
    grub_ieee1275_tpm_version := 0
    init_success := 1
    size_error_displayed := 0
    submit_error_displayed := 0 }

/-- A sequence of grub_ieee1275_tpm_init calls, one per environment in the
    list, threading the state; returns the per-call results and the final
    state. -/
def run_init_calls : TpmState → List InitEnv → List InitResult × TpmState
  | s, [] => ([], s)
  | s, e :: es =>
    let r := grub_ieee1275_tpm_init e s
    let p := run_init_calls r.state es
    (r :: p.1, p.2)

/-
  Helper lemmas shared by the claim theorems.
-/

/-- tpm_get_tpm_version touches only the interface version: the ihandle,
    init_success and both warning counters are unchanged. -/
lemma tpm_get_tpm_version_frame (env : InitEnv) (t : TpmState) :
    (tpm_get_tpm_version env t).grub_ieee1275_tpm_ihandle = t.grub_ieee1275_tpm_ihandle ∧
    (tpm_get_tpm_version env t).init_success = t.init_success ∧
    (tpm_get_tpm_version env t).size_error_displayed = t.size_error_displayed ∧
    (tpm_get_tpm_version env t).submit_error_displayed = t.submit_error_displayed := by
  unfold tpm_get_tpm_version
  rcases hf : env.finddevice_result with _ | vtpm
  · simp [hf]
  rcases hp : env.get_property vtpm 20 with _ | buffer
  · simp [hf, hp]
  by_cases hb : buffer = "IBM,vtpm20" <;> simp [hf, hp, hb]

/-- After initialization has once succeeded, grub_ieee1275_tpm_init is a
    no-op returning success with no open attempt. -/
lemma tpm_init_already (env : InitEnv) (s : TpmState) (h : s.init_success ≠ 0) :
    grub_ieee1275_tpm_init env s =
      { err := grub_err_t.GRUB_ERR_NONE, state := s, open_attempts := 0 } := by
  unfold grub_ieee1275_tpm_init
  simp [h]

/-- A call to grub_ieee1275_tpm_init on an uninitialized state whose open
    fails: it attempts the open, resets the ihandle to the invalid
    sentinel, returns GRUB_ERR_UNKNOWN_DEVICE, and leaves init_success
    at 0. -/
lemma tpm_init_open_failed (env : InitEnv) (s : TpmState)
    (hs : s.init_success = 0) (h : env.open_result = none) :
    grub_ieee1275_tpm_init env s =
      { err := grub_err_t.GRUB_ERR_UNKNOWN_DEVICE
        state := { s with grub_ieee1275_tpm_ihandle := IEEE1275_IHANDLE_INVALID }
        open_attempts := 1 } := by
  unfold grub_ieee1275_tpm_init
  simp [hs, h]

/-- A successful grub_ieee1275_tpm_init leaves init_success nonzero in the
    resulting state. -/
lemma tpm_init_success_state (env : InitEnv) (s : TpmState)
    (h : (grub_ieee1275_tpm_init env s).err = grub_err_t.GRUB_ERR_NONE) :
    (grub_ieee1275_tpm_init env s).state.init_success ≠ 0 := by
  unfold grub_ieee1275_tpm_init at *
  by_cases hs : s.init_success = 0
  · rcases hopen : env.open_result with _ | ihandle
    · simp [hs, hopen] at h
    · have := (tpm_get_tpm_version_frame env
        { s with grub_ieee1275_tpm_ihandle := ihandle, init_success := 1 }).2.1
      simp [hs, hopen, this]
  · simp [hs]

/-- tpm_get_tpm_version yields version 2 exactly when the node resolves
    and the property read of the 20-byte buffer returns "IBM,vtpm20",
    provided the version was not 2 already. -/
lemma tpm_version_eq_two_iff (env : InitEnv) (t : TpmState)
    (hv : t.grub_ieee1275_tpm_version ≠ 2) :
    (tpm_get_tpm_version env t).grub_ieee1275_tpm_version = 2 ↔
      ∃ p, env.finddevice_result = some p ∧ env.get_property p 20 = some "IBM,vtpm20" := by
  unfold tpm_get_tpm_version
  rcases hf : env.finddevice_result with _ | p
  · simp [hf, hv]
  rcases hp : env.get_property p 20 with _ | buffer
  · simp [hf, hp, hv]
  by_cases hb : buffer = "IBM,vtpm20" <;> simp [hf, hp, hb, hv]

/-- tpm_get_tpm_version either leaves the version unchanged or sets it
    to 2. -/
lemma tpm_version_unchanged_or_two (env : InitEnv) (t : TpmState) :
    (tpm_get_tpm_version env t).grub_ieee1275_tpm_version = t.grub_ieee1275_tpm_version ∨
    (tpm_get_tpm_version env t).grub_ieee1275_tpm_version = 2 := by
  unfold tpm_get_tpm_version
  rcases hf : env.finddevice_result with _ | p
  · simp [hf]
  rcases hp : env.get_property p 20 with _ | buffer
  · simp [hf, hp]
  by_cases hb : buffer = "IBM,vtpm20" <;> simp [hf, hp, hb]

/-- Once the state records a completed initialization, any sequence of
    further grub_ieee1275_tpm_init calls returns success with no open
    attempt and leaves the state fixed. -/
lemma run_init_noop (s1 : TpmState) (h : s1.init_success ≠ 0) (envs : List InitEnv) :
    (∀ r ∈ (run_init_calls s1 envs).1,
        r = { err := grub_err_t.GRUB_ERR_NONE, state := s1, open_attempts := 0 }) ∧
    (run_init_calls s1 envs).2 = s1 := by
  induction envs with
  | nil => simp [run_init_calls]
  | cons e es ih =>
    simp only [run_init_calls, tpm_init_already e s1 h]
    refine ⟨?_, ih.2⟩
    intro r hr
    rcases List.mem_cons.mp hr with hr | hr
    · exact hr
    · exact ih.1 r hr

/-- Claim C6: grub_ieee1275_tpm_init is idempotent after success: once a
    call has succeeded, every subsequent call returns success without
    attempting another device open, and the state (in particular the
    cached device handle and the interface version) is unchanged by the
    repeated calls. -/
theorem claim_C6 (env : InitEnv) (envs : List InitEnv) (s : TpmState)
    (h : (grub_ieee1275_tpm_init env s).err = grub_err_t.GRUB_ERR_NONE) :
    (∀ r ∈ (run_init_calls (grub_ieee1275_tpm_init env s).state envs).1,
        r = { err := grub_err_t.GRUB_ERR_NONE
              state := (grub_ieee1275_tpm_init env s).state
              open_attempts := 0 }) ∧
    (run_init_calls (grub_ieee1275_tpm_init env s).state envs).2 =
      (grub_ieee1275_tpm_init env s).state :=
  run_init_noop _ (tpm_init_success_state env s h) envs

/-- Witness for claim C6 at a concrete successful boot environment and two
    subsequent calls. -/
theorem claim_C6_witness :
    (∀ r ∈ (run_init_calls (grub_ieee1275_tpm_init env_open_ok initial_state).state
        [env_open_fails, env_vtpm20]).1,
        r = { err := grub_err_t.GRUB_ERR_NONE
              state := (grub_ieee1275_tpm_init env_open_ok initial_state).state
              open_attempts := 0 }) ∧
    (run_init_calls (grub_ieee1275_tpm_init env_open_ok initial_state).state
        [env_open_fails, env_vtpm20]).2 =
      (grub_ieee1275_tpm_init env_open_ok initial_state).state :=
  claim_C6 env_open_ok [env_open_fails, env_vtpm20] initial_state rfl

/-- Counterexample to claim C1 as stated: starting from boot, a first
    grub_ieee1275_tpm_init whose open fails does NOT latch the failure:
    the second call performs another open attempt (open_attempts = 1, not
    0), and a second call whose open succeeds returns GRUB_ERR_NONE rather
    than the unknown-device failure. -/
theorem claim_C1_counterexample :
    (grub_ieee1275_tpm_init env_open_fails
        (grub_ieee1275_tpm_init env_open_fails initial_state).state).open_attempts = 1 ∧
    (grub_ieee1275_tpm_init env_open_ok
        (grub_ieee1275_tpm_init env_open_fails initial_state).state).err =
      grub_err_t.GRUB_ERR_NONE :=
  ⟨rfl, rfl⟩

/-- Claim C1 (amended): after a failed open, a subsequent call whose open
    also fails returns the same unknown-device failure, but the failure is
    NOT latched: init_success stays 0 and every subsequent call invokes
    the device-open collaborator again (one open attempt per call). -/
theorem claim_C1_amended (env env2 : InitEnv) (s : TpmState)
    (hs : s.init_success = 0) (h1 : env.open_result = none)
    (h2 : env2.open_result = none) :
    (grub_ieee1275_tpm_init env s).err = grub_err_t.GRUB_ERR_UNKNOWN_DEVICE ∧
    (grub_ieee1275_tpm_init env s).open_attempts = 1 ∧
    (grub_ieee1275_tpm_init env s).state.init_success = 0 ∧
    (grub_ieee1275_tpm_init env2 (grub_ieee1275_tpm_init env s).state).err =
      grub_err_t.GRUB_ERR_UNKNOWN_DEVICE ∧
    (grub_ieee1275_tpm_init env2 (grub_ieee1275_tpm_init env s).state).open_attempts = 1 := by
  have e1 := tpm_init_open_failed env s hs h1
  have e2 := tpm_init_open_failed env2
    { s with grub_ieee1275_tpm_ihandle := IEEE1275_IHANDLE_INVALID } hs h2
  simp only [hs] at e1 e2
  simp [e1, e2, hs]

/-- Witness for the amended claim C1 at a concrete boot environment whose
    open keeps failing. -/
theorem claim_C1_amended_witness :
    (grub_ieee1275_tpm_init env_open_fails initial_state).err =
      grub_err_t.GRUB_ERR_UNKNOWN_DEVICE ∧
    (grub_ieee1275_tpm_init env_open_fails initial_state).open_attempts = 1 ∧
    (grub_ieee1275_tpm_init env_open_fails initial_state).state.init_success = 0 ∧
    (grub_ieee1275_tpm_init env_open_fails
        (grub_ieee1275_tpm_init env_open_fails initial_state).state).err =
      grub_err_t.GRUB_ERR_UNKNOWN_DEVICE ∧
    (grub_ieee1275_tpm_init env_open_fails
        (grub_ieee1275_tpm_init env_open_fails initial_state).state).open_attempts = 1 :=
  claim_C1_amended env_open_fails env_open_fails initial_state rfl rfl rfl

/-- Claim C5: during a fresh initialization whose open succeeds, the
    interface version is upgraded from legacy (0) to 2 if and only if the
    device node at the virtual-TPM path resolves and the "compatible"
    property read into the 20-byte buffer yields exactly "IBM,vtpm20";
    otherwise the version stays 0; and version detection never makes
    grub_ieee1275_tpm_init fail. -/
theorem claim_C5 (env : InitEnv) (s : TpmState) (ih : Nat)
    (hs : s.init_success = 0) (hv : s.grub_ieee1275_tpm_version = 0)
    (hopen : env.open_result = some ih) :
    (grub_ieee1275_tpm_init env s).err = grub_err_t.GRUB_ERR_NONE ∧
    ((grub_ieee1275_tpm_init env s).state.grub_ieee1275_tpm_version = 2 ↔
      ∃ p, env.finddevice_result = some p ∧ env.get_property p 20 = some "IBM,vtpm20") ∧
    ((grub_ieee1275_tpm_init env s).state.grub_ieee1275_tpm_version = 2 ∨
     (grub_ieee1275_tpm_init env s).state.grub_ieee1275_tpm_version = 0) := by
  unfold grub_ieee1275_tpm_init
  simp only [hs, hopen, if_pos rfl]
  refine ⟨rfl, ?_, ?_⟩
  · exact tpm_version_eq_two_iff env
      { s with grub_ieee1275_tpm_ihandle := ih, init_success := 1 } (by simp [hv])
  · rcases tpm_version_unchanged_or_two env
      { s with grub_ieee1275_tpm_ihandle := ih, init_success := 1 } with h | h
    · right
      simpa [hv] using h
    · left
      exact h

/-- Witness for claim C5 at a boot environment whose node resolves to
    phandle 7 and reports the "IBM,vtpm20" compatibility string. -/
theorem claim_C5_witness :
    (grub_ieee1275_tpm_init env_vtpm20 initial_state).err = grub_err_t.GRUB_ERR_NONE ∧
    ((grub_ieee1275_tpm_init env_vtpm20 initial_state).state.grub_ieee1275_tpm_version = 2 ↔
      ∃ p, env_vtpm20.finddevice_result = some p ∧
        env_vtpm20.get_property p 20 = some "IBM,vtpm20") ∧
    ((grub_ieee1275_tpm_init env_vtpm20 initial_state).state.grub_ieee1275_tpm_version = 2 ∨
     (grub_ieee1275_tpm_init env_vtpm20 initial_state).state.grub_ieee1275_tpm_version = 0) :=
  claim_C5 env_vtpm20 initial_state 5 rfl rfl rfl

/-- A grub_tcg2_submit_command call with a zero-size or NULL buffer
    returns GRUB_ERR_BAD_ARGUMENT at once: no open attempt, no dispatcher
    invocation, no warning, buffers and state untouched. -/
lemma submit_bad_args (env : InitEnv) (disp : SubmitDispatch)
    (input_size : Nat) (input : Option (List Nat))
    (output_size : Nat) (output : Option (List Nat)) (s : TpmState)
    (h : input_size = 0 ∨ input = none ∨ output_size = 0 ∨ output = none) :
    grub_tcg2_submit_command env disp input_size input output_size output s =
      { err := grub_err_t.GRUB_ERR_BAD_ARGUMENT, input := input, output := output
        state := s, open_attempts := 0, dispatch_count := 0, warned := false } := by
  unfold grub_tcg2_submit_command
  rw [if_pos h]

/-- Claim C4: whenever input_size is zero, input is NULL, output_size is
    zero or output is NULL, grub_tcg2_submit_command returns the
    bad-argument error immediately and the firmware dispatcher is never
    invoked (dispatch_count stays 0). -/
theorem claim_C4 (env : InitEnv) (disp : SubmitDispatch)
    (input_size : Nat) (input : Option (List Nat))
    (output_size : Nat) (output : Option (List Nat)) (s : TpmState)
    (h : input_size = 0 ∨ input = none ∨ output_size = 0 ∨ output = none) :
    (grub_tcg2_submit_command env disp input_size input output_size output s).err =
      grub_err_t.GRUB_ERR_BAD_ARGUMENT ∧
    (grub_tcg2_submit_command env disp input_size input output_size output s).dispatch_count
      = 0 := by
  rw [submit_bad_args env disp input_size input output_size output s h]
  exact ⟨rfl, rfl⟩

/-- Witness for claim C4 at a zero input_size. -/
theorem claim_C4_witness :
    (grub_tcg2_submit_command env_open_ok dp_entry_ok 0 (some [1]) 4 (some [0, 0])
        initial_state).err = grub_err_t.GRUB_ERR_BAD_ARGUMENT ∧
    (grub_tcg2_submit_command env_open_ok dp_entry_ok 0 (some [1]) 4 (some [0, 0])
        initial_state).dispatch_count = 0 :=
  claim_C4 env_open_ok dp_entry_ok 0 (some [1]) 4 (some [0, 0]) initial_state
    (Or.inl rfl)

/-- Claim C10: a bad-argument grub_tcg2_submit_command call returns before
    invoking grub_ieee1275_tpm_init, so the cached handle, the interface
    version, the initialization flag and both warning counters are exactly
    as before the call, and no open attempt happens. -/
theorem claim_C10 (env : InitEnv) (disp : SubmitDispatch)
    (input_size : Nat) (input : Option (List Nat))
    (output_size : Nat) (output : Option (List Nat)) (s : TpmState)
    (h : input_size = 0 ∨ input = none ∨ output_size = 0 ∨ output = none) :
    (grub_tcg2_submit_command env disp input_size input output_size output s).state = s ∧
    (grub_tcg2_submit_command env disp input_size input output_size output s).open_attempts
      = 0 ∧
    (grub_tcg2_submit_command env disp input_size input output_size output s).state.grub_ieee1275_tpm_ihandle
      = s.grub_ieee1275_tpm_ihandle ∧
    (grub_tcg2_submit_command env disp input_size input output_size output s).state.grub_ieee1275_tpm_version
      = s.grub_ieee1275_tpm_version ∧
    (grub_tcg2_submit_command env disp input_size input output_size output s).state.init_success
      = s.init_success ∧
    (grub_tcg2_submit_command env disp input_size input output_size output s).state.size_error_displayed
      = s.size_error_displayed ∧
    (grub_tcg2_submit_command env disp input_size input output_size output s).state.submit_error_displayed
      = s.submit_error_displayed := by
  rw [submit_bad_args env disp input_size input output_size output s h]
  exact ⟨rfl, rfl, rfl, rfl, rfl, rfl, rfl⟩

/-- Witness for claim C10 at a NULL input buffer. -/
theorem claim_C10_witness :
    (grub_tcg2_submit_command env_open_ok dp_entry_ok 3 none 4 (some [0, 0])
        ready_state).state = ready_state ∧
    (grub_tcg2_submit_command env_open_ok dp_entry_ok 3 none 4 (some [0, 0])
        ready_state).open_attempts = 0 ∧
    (grub_tcg2_submit_command env_open_ok dp_entry_ok 3 none 4 (some [0, 0])
        ready_state).state.grub_ieee1275_tpm_ihandle = ready_state.grub_ieee1275_tpm_ihandle ∧
    (grub_tcg2_submit_command env_open_ok dp_entry_ok 3 none 4 (some [0, 0])
        ready_state).state.grub_ieee1275_tpm_version = ready_state.grub_ieee1275_tpm_version ∧
    (grub_tcg2_submit_command env_open_ok dp_entry_ok 3 none 4 (some [0, 0])
        ready_state).state.init_success = ready_state.init_success ∧
    (grub_tcg2_submit_command env_open_ok dp_entry_ok 3 none 4 (some [0, 0])
        ready_state).state.size_error_displayed = ready_state.size_error_displayed ∧
    (grub_tcg2_submit_command env_open_ok dp_entry_ok 3 none 4 (some [0, 0])
        ready_state).state.submit_error_displayed = ready_state.submit_error_displayed :=
  claim_C10 env_open_ok dp_entry_ok 3 none 4 (some [0, 0]) ready_state
    (Or.inr (Or.inl rfl))

/-- Claim C7: when the firmware entry point itself returns the -1
    sentinel, both operations return GRUB_ERR_INVALID_COMMAND with the
    state, the out-parameter and the output buffer untouched, and the
    whole result is the same for every value of the catch/failure flag and
    of the result cells: those cells are never read on this path. -/
theorem claim_C7 (env : InitEnv) (s : TpmState) (size0 c sz : Nat)
    (input_size output_size : Nat) (ibuf obuf buf : List Nat) (cp rp : Nat)
    (hinit : s.init_success ≠ 0) (hin : input_size ≠ 0) (hout : output_size ≠ 0) :
    grub_tcg2_get_max_output_size env
        { entry_ret := -1, catch_result := c, size := sz } size0 s =
      { err := grub_err_t.GRUB_ERR_INVALID_COMMAND, size := size0, state := s
        open_attempts := 0, dispatch_count := 1, warned := false } ∧
    grub_tcg2_submit_command env
        { entry_ret := -1, catch_result := cp, resp_size := rp, buf_after := buf }
        input_size (some ibuf) output_size (some obuf) s =
      { err := grub_err_t.GRUB_ERR_INVALID_COMMAND, input := some buf
        output := some obuf, state := s
        open_attempts := 0, dispatch_count := 1, warned := false } := by
  constructor
  · unfold grub_tcg2_get_max_output_size
    simp [tpm_init_already env s hinit]
  · unfold grub_tcg2_submit_command
    simp [tpm_init_already env s hinit, hin, hout]

/-- Witness for claim C7 at concrete cell values 3 and 9 (size query) and
    1 and 1 (submission). -/
theorem claim_C7_witness :
    grub_tcg2_get_max_output_size env_open_fails
        { entry_ret := -1, catch_result := 3, size := 9 } 7 ready_state =
      { err := grub_err_t.GRUB_ERR_INVALID_COMMAND, size := 7, state := ready_state
        open_attempts := 0, dispatch_count := 1, warned := false } ∧
    grub_tcg2_submit_command env_open_fails
        { entry_ret := -1, catch_result := 1, resp_size := 1, buf_after := [4, 4] }
        2 (some [1, 2]) 2 (some [0, 0]) ready_state =
      { err := grub_err_t.GRUB_ERR_INVALID_COMMAND, input := some [4, 4]
        output := some [0, 0], state := ready_state
        open_attempts := 0, dispatch_count := 1, warned := false } :=
  claim_C7 env_open_fails ready_state 7 3 9 2 2 [1, 2] [0, 0] [4, 4] 1 1
    (by decide) (by decide) (by decide)

/-- Claim C8: on a successful size query (initialization already
    succeeded, entry function succeeds, catch flag clear) the size result
    cell is stored verbatim into the caller's out-parameter — for every
    value sz, with no bound check — and GRUB_ERR_NONE is returned. -/
theorem claim_C8 (env : InitEnv) (s : TpmState) (size0 sz : Nat) (e : Int)
    (hinit : s.init_success ≠ 0) (he : e ≠ -1) :
    grub_tcg2_get_max_output_size env
        { entry_ret := e, catch_result := 0, size := sz } size0 s =
      { err := grub_err_t.GRUB_ERR_NONE, size := sz, state := s
        open_attempts := 0, dispatch_count := 1, warned := false } := by
  unfold grub_tcg2_get_max_output_size
  simp [tpm_init_already env s hinit, he]

/-- Witness for claim C8: a firmware double returning failure-flag 0 and
    size 4096 yields success with size 4096. -/
theorem claim_C8_witness :
    grub_tcg2_get_max_output_size env_open_fails
        { entry_ret := 0, catch_result := 0, size := 4096 } 0 ready_state =
      { err := grub_err_t.GRUB_ERR_NONE, size := 4096, state := ready_state
        open_attempts := 0, dispatch_count := 1, warned := false } :=
  claim_C8 env_open_fails ready_state 0 4096 0 (by decide) (by decide)

/-- Claim C3: on a successful submission, exactly the firmware-reported
    resp_size bytes are copied from the (possibly firmware-overwritten)
    input buffer into the output buffer and GRUB_ERR_NONE is returned;
    with an echo dispatcher (buf_after = ibuf) and resp_size R at most the
    input length, the first R bytes of the output buffer equal the first R
    bytes of the input buffer and the output bytes beyond R are
    untouched. -/
theorem claim_C3 (env : InitEnv) (disp : SubmitDispatch) (ibuf obuf : List Nat)
    (input_size output_size : Nat) (s : TpmState)
    (hin : input_size ≠ 0) (hout : output_size ≠ 0)
    (hinit : s.init_success ≠ 0)
    (hentry : disp.entry_ret ≠ -1) (hcatch : disp.catch_result = 0)
    (hecho : disp.buf_after = ibuf) (hR : disp.resp_size ≤ ibuf.length) :
    (grub_tcg2_submit_command env disp input_size (some ibuf) output_size (some obuf) s).err
      = grub_err_t.GRUB_ERR_NONE ∧
    (grub_tcg2_submit_command env disp input_size (some ibuf) output_size (some obuf) s).output
      = some (grub_memcpy obuf ibuf disp.resp_size) ∧
    (((grub_tcg2_submit_command env disp input_size (some ibuf) output_size (some obuf)
        s).output.getD []).take disp.resp_size = ibuf.take disp.resp_size) ∧
    (((grub_tcg2_submit_command env disp input_size (some ibuf) output_size (some obuf)
        s).output.getD []).drop disp.resp_size = obuf.drop disp.resp_size) := by
  have hlen : (ibuf.take disp.resp_size).length = disp.resp_size := by
    simp [hR]
  have hres :
      grub_tcg2_submit_command env disp input_size (some ibuf) output_size (some obuf) s =
        { err := grub_err_t.GRUB_ERR_NONE, input := some disp.buf_after
          output := some (grub_memcpy obuf disp.buf_after disp.resp_size)
          state := s, open_attempts := 0, dispatch_count := 1, warned := false } := by
    unfold grub_tcg2_submit_command
    simp [tpm_init_already env s hinit, hin, hout, hentry, hcatch]
  rw [hres, hecho]
  refine ⟨rfl, rfl, ?_, ?_⟩
  · simpa [grub_memcpy] using
      @List.take_left' Nat (ibuf.take disp.resp_size) (obuf.drop disp.resp_size)
        disp.resp_size hlen
  · simpa [grub_memcpy] using
      @List.drop_left' Nat (ibuf.take disp.resp_size) (obuf.drop disp.resp_size)
        disp.resp_size hlen

/-- Witness for claim C3: an echo double with a 3-byte command and a
    2-byte response: the first 2 output bytes equal the first 2 input
    bytes and the remaining output bytes are untouched. -/
theorem claim_C3_witness :
    (grub_tcg2_submit_command env_open_fails dp_entry_ok 3 (some [1, 2, 3]) 4
        (some [9, 9, 9, 9]) ready_state).err = grub_err_t.GRUB_ERR_NONE ∧
    (grub_tcg2_submit_command env_open_fails dp_entry_ok 3 (some [1, 2, 3]) 4
        (some [9, 9, 9, 9]) ready_state).output
      = some (grub_memcpy [9, 9, 9, 9] [1, 2, 3] dp_entry_ok.resp_size) ∧
    (((grub_tcg2_submit_command env_open_fails dp_entry_ok 3 (some [1, 2, 3]) 4
        (some [9, 9, 9, 9]) ready_state).output.getD []).take dp_entry_ok.resp_size
      = [1, 2, 3].take dp_entry_ok.resp_size) ∧
    (((grub_tcg2_submit_command env_open_fails dp_entry_ok 3 (some [1, 2, 3]) 4
        (some [9, 9, 9, 9]) ready_state).output.getD []).drop dp_entry_ok.resp_size
      = [9, 9, 9, 9].drop dp_entry_ok.resp_size) :=
  claim_C3 env_open_fails dp_entry_ok [1, 2, 3] [9, 9, 9, 9] 3 4 ready_state
    (by decide) (by decide) (by decide) (by decide) (by decide) rfl (by decide)

/-- On every error return of the size query, the caller's size
    out-parameter keeps its previous contents. -/
lemma max_size_frame_on_error (env : InitEnv) (dm : MaxSizeDispatch)
    (size0 : Nat) (s : TpmState) :
    (grub_tcg2_get_max_output_size env dm size0 s).size = size0 ∨
    (grub_tcg2_get_max_output_size env dm size0 s).err = grub_err_t.GRUB_ERR_NONE := by
  unfold grub_tcg2_get_max_output_size
  by_cases h1 : (grub_ieee1275_tpm_init env s).err ≠ grub_err_t.GRUB_ERR_NONE
  · simp [h1]
  · by_cases h2 : dm.entry_ret = -1
    · simp [h1, h2]
    · by_cases h3 : dm.catch_result ≠ 0
      · by_cases h4 : (grub_ieee1275_tpm_init env s).state.size_error_displayed = 0 <;>
          simp [h1, h2, h3, h4]
      · simp [h1, h2, h3]

/-- On every error return of the submission, the caller's output buffer
    keeps its previous contents. -/
lemma submit_frame_on_error (env : InitEnv) (dp : SubmitDispatch)
    (input_size output_size : Nat) (input output : Option (List Nat)) (s : TpmState) :
    (grub_tcg2_submit_command env dp input_size input output_size output s).output = output ∨
    (grub_tcg2_submit_command env dp input_size input output_size output s).err =
      grub_err_t.GRUB_ERR_NONE := by
  unfold grub_tcg2_submit_command
  by_cases h0 : input_size = 0 ∨ input = none ∨ output_size = 0 ∨ output = none
  · simp [h0]
  · by_cases h1 : (grub_ieee1275_tpm_init env s).err ≠ grub_err_t.GRUB_ERR_NONE
    · simp [h0, h1]
    · by_cases h2 : dp.entry_ret = -1
      · simp [h0, h1, h2]
      · by_cases h3 : dp.catch_result ≠ 0
        · by_cases h4 : (grub_ieee1275_tpm_init env s).state.submit_error_displayed = 0 <;>
            simp [h0, h1, h2, h3, h4]
        · simp [h0, h1, h2, h3]

/-- Claim C9: the size out-parameter of grub_tcg2_get_max_output_size and
    the output buffer of grub_tcg2_submit_command are written only on the
    success path: on every error return they are unchanged. -/
theorem claim_C9 (env : InitEnv) (dm : MaxSizeDispatch) (dp : SubmitDispatch)
    (size0 input_size output_size : Nat) (input output : Option (List Nat))
    (s : TpmState) :
    ((grub_tcg2_get_max_output_size env dm size0 s).err ≠ grub_err_t.GRUB_ERR_NONE →
      (grub_tcg2_get_max_output_size env dm size0 s).size = size0) ∧
    ((grub_tcg2_submit_command env dp input_size input output_size output s).err ≠
        grub_err_t.GRUB_ERR_NONE →
      (grub_tcg2_submit_command env dp input_size input output_size output s).output
        = output) := by
  constructor
  · intro h
    rcases max_size_frame_on_error env dm size0 s with hc | hc
    · exact hc
    · exact absurd hc h
  · intro h
    rcases submit_frame_on_error env dp input_size output_size input output s with hc | hc
    · exact hc
    · exact absurd hc h

/-- Witness for claim C9: a size query failing with unknown device leaves
    the out-parameter at 7, and a submission rejected for a zero-size
    input leaves the output buffer at [9, 9]. -/
theorem claim_C9_witness :
    (grub_tcg2_get_max_output_size env_open_fails dm_catch_fail 7 initial_state).size = 7 ∧
    (grub_tcg2_submit_command env_open_fails dp_entry_ok 0 (some [1]) 2 (some [9, 9])
        initial_state).output = some [9, 9] :=
  ⟨(claim_C9 env_open_fails dm_catch_fail dp_entry_ok 7 0 2 (some [1]) (some [9, 9])
      initial_state).1 (by decide),
   (claim_C9 env_open_fails dm_catch_fail dp_entry_ok 7 0 2 (some [1]) (some [9, 9])
      initial_state).2 (by decide)⟩

/-- First unsupported-method occurrence of the size query: it returns
    GRUB_ERR_BAD_DEVICE, emits the warning and bumps its own counter. -/
lemma get_max_failed_first (env : InitEnv) (dm : MaxSizeDispatch)
    (size0 : Nat) (s : TpmState)
    (hinit : s.init_success ≠ 0) (hflag : s.size_error_displayed = 0)
    (hentry : dm.entry_ret ≠ -1) (hcatch : dm.catch_result ≠ 0) :
    grub_tcg2_get_max_output_size env dm size0 s =
      { err := grub_err_t.GRUB_ERR_BAD_DEVICE, size := size0
        state := { s with size_error_displayed := 1 }
        open_attempts := 0, dispatch_count := 1, warned := true } := by
  unfold grub_tcg2_get_max_output_size
  simp [tpm_init_already env s hinit, hentry, hcatch, hflag]

/-- Later unsupported-method occurrences of the size query: they return
    GRUB_ERR_INVALID_COMMAND without a warning and leave the state
    unchanged. -/
lemma get_max_failed_again (env : InitEnv) (dm : MaxSizeDispatch)
    (size0 : Nat) (s : TpmState)
    (hinit : s.init_success ≠ 0) (hflag : s.size_error_displayed ≠ 0)
    (hentry : dm.entry_ret ≠ -1) (hcatch : dm.catch_result ≠ 0) :
    grub_tcg2_get_max_output_size env dm size0 s =
      { err := grub_err_t.GRUB_ERR_INVALID_COMMAND, size := size0, state := s
        open_attempts := 0, dispatch_count := 1, warned := false } := by
  unfold grub_tcg2_get_max_output_size
  simp [tpm_init_already env s hinit, hentry, hcatch, hflag]

/-- A whole run of unsupported-method size queries after the warning has
    been displayed: every call yields GRUB_ERR_INVALID_COMMAND with no
    warning and the state never changes. -/
lemma run_max_all_failed (env : InitEnv) (size0 : Nat) (s : TpmState)
    (ds : List MaxSizeDispatch)
    (hinit : s.init_success ≠ 0) (hflag : s.size_error_displayed ≠ 0)
    (hds : ∀ d ∈ ds, d.entry_ret ≠ -1 ∧ d.catch_result ≠ 0) :
    (∀ r ∈ (run_max_calls env size0 s ds).1,
        r.err = grub_err_t.GRUB_ERR_INVALID_COMMAND ∧ r.warned = false) ∧
    (run_max_calls env size0 s ds).2 = s := by
  induction ds with
  | nil => simp [run_max_calls]
  | cons d ds ih =>
    have hd := hds d (List.mem_cons_self d ds)
    have hstep := get_max_failed_again env d size0 s hinit hflag hd.1 hd.2
    have ihr := ih (fun d hm => hds d (List.mem_cons_of_mem _ hm))
    simp only [run_max_calls, hstep]
    refine ⟨?_, ihr.2⟩
    intro r hr
    rcases List.mem_cons.mp hr with hr | hr
    · subst hr
      exact ⟨rfl, rfl⟩
    · exact ihr.1 r hr

/-- First unsupported-method occurrence of the submission: it returns
    GRUB_ERR_BAD_DEVICE, emits the warning and bumps its own counter. -/
lemma submit_failed_first (env : InitEnv) (dp : SubmitDispatch)
    (input_size output_size : Nat) (ibuf obuf : List Nat) (s : TpmState)
    (hin : input_size ≠ 0) (hout : output_size ≠ 0)
    (hinit : s.init_success ≠ 0) (hflag : s.submit_error_displayed = 0)
    (hentry : dp.entry_ret ≠ -1) (hcatch : dp.catch_result ≠ 0) :
    grub_tcg2_submit_command env dp input_size (some ibuf) output_size (some obuf) s =
      { err := grub_err_t.GRUB_ERR_BAD_DEVICE, input := some dp.buf_after
        output := some obuf
        state := { s with submit_error_displayed := 1 }
        open_attempts := 0, dispatch_count := 1, warned := true } := by
  unfold grub_tcg2_submit_command
  simp [tpm_init_already env s hinit, hin, hout, hentry, hcatch, hflag]

/-- Later unsupported-method occurrences of the submission: they return
    GRUB_ERR_INVALID_COMMAND without a warning and leave the state
    unchanged. -/
lemma submit_failed_again (env : InitEnv) (dp : SubmitDispatch)
    (input_size output_size : Nat) (ibuf obuf : List Nat) (s : TpmState)
    (hin : input_size ≠ 0) (hout : output_size ≠ 0)
    (hinit : s.init_success ≠ 0) (hflag : s.submit_error_displayed ≠ 0)
    (hentry : dp.entry_ret ≠ -1) (hcatch : dp.catch_result ≠ 0) :
    grub_tcg2_submit_command env dp input_size (some ibuf) output_size (some obuf) s =
      { err := grub_err_t.GRUB_ERR_INVALID_COMMAND, input := some dp.buf_after
        output := some obuf, state := s
        open_attempts := 0, dispatch_count := 1, warned := false } := by
  unfold grub_tcg2_submit_command
  simp [tpm_init_already env s hinit, hin, hout, hentry, hcatch, hflag]

/-- A whole run of unsupported-method submissions after the warning has
    been displayed: every call yields GRUB_ERR_INVALID_COMMAND with no
    warning and the state never changes. -/
lemma run_submit_all_failed (env : InitEnv)
    (input_size output_size : Nat) (ibuf obuf : List Nat) (s : TpmState)
    (ds : List SubmitDispatch)
    (hin : input_size ≠ 0) (hout : output_size ≠ 0)
    (hinit : s.init_success ≠ 0) (hflag : s.submit_error_displayed ≠ 0)
    (hds : ∀ d ∈ ds, d.entry_ret ≠ -1 ∧ d.catch_result ≠ 0) :
    (∀ r ∈ (run_submit_calls env input_size (some ibuf) output_size (some obuf) s ds).1,
        r.err = grub_err_t.GRUB_ERR_INVALID_COMMAND ∧ r.warned = false) ∧
    (run_submit_calls env input_size (some ibuf) output_size (some obuf) s ds).2 = s := by
  induction ds with
  | nil => simp [run_submit_calls]
  | cons d ds ih =>
    have hd := hds d (List.mem_cons_self d ds)
    have hstep := submit_failed_again env d input_size output_size ibuf obuf s
      hin hout hinit hflag hd.1 hd.2
    have ihr := ih (fun d hm => hds d (List.mem_cons_of_mem _ hm))
    simp only [run_submit_calls, hstep]
    refine ⟨?_, ihr.2⟩
    intro r hr
    rcases List.mem_cons.mp hr with hr | hr
    · subst hr
      exact ⟨rfl, rfl⟩
    · exact ihr.1 r hr

/-- Claim C2: over a run of size queries that each hit the
    unsupported-method condition, the first returns GRUB_ERR_BAD_DEVICE
    with the one-time warning and every later one returns
    GRUB_ERR_INVALID_COMMAND silently; and the two operation kinds track
    this independently: after the whole size-query run, a run of failing
    submissions still warns on its own first call and is silent
    afterwards. -/
theorem claim_C2 (env : InitEnv) (s : TpmState) (size0 : Nat)
    (input_size output_size : Nat) (ibuf obuf : List Nat)
    (dm : MaxSizeDispatch) (dms : List MaxSizeDispatch)
    (dp : SubmitDispatch) (dps : List SubmitDispatch)
    (hinit : s.init_success ≠ 0)
    (hm0 : s.size_error_displayed = 0) (hp0 : s.submit_error_displayed = 0)
    (hin : input_size ≠ 0) (hout : output_size ≠ 0)
    (hdm : dm.entry_ret ≠ -1 ∧ dm.catch_result ≠ 0)
    (hdms : ∀ d ∈ dms, d.entry_ret ≠ -1 ∧ d.catch_result ≠ 0)
    (hdp : dp.entry_ret ≠ -1 ∧ dp.catch_result ≠ 0)
    (hdps : ∀ d ∈ dps, d.entry_ret ≠ -1 ∧ d.catch_result ≠ 0) :
    (grub_tcg2_get_max_output_size env dm size0 s).err =
      grub_err_t.GRUB_ERR_BAD_DEVICE ∧
    (grub_tcg2_get_max_output_size env dm size0 s).warned = true ∧
    (∀ r ∈ (run_max_calls env size0 s (dm :: dms)).1.tail,
        r.err = grub_err_t.GRUB_ERR_INVALID_COMMAND ∧ r.warned = false) ∧
    (grub_tcg2_submit_command env dp input_size (some ibuf) output_size (some obuf)
        (run_max_calls env size0 s (dm :: dms)).2).err =
      grub_err_t.GRUB_ERR_BAD_DEVICE ∧
    (grub_tcg2_submit_command env dp input_size (some ibuf) output_size (some obuf)
        (run_max_calls env size0 s (dm :: dms)).2).warned = true ∧
    (∀ r ∈ (run_submit_calls env input_size (some ibuf) output_size (some obuf)
        (run_max_calls env size0 s (dm :: dms)).2 (dp :: dps)).1.tail,
        r.err = grub_err_t.GRUB_ERR_INVALID_COMMAND ∧ r.warned = false) := by
  have hfirst := get_max_failed_first env dm size0 s hinit hm0 hdm.1 hdm.2
  have hs1init : ({ s with size_error_displayed := 1 } : TpmState).init_success ≠ 0 := hinit
  have hs1flag : ({ s with size_error_displayed := 1 } : TpmState).size_error_displayed ≠ 0 := by
    simp
  have hrun := run_max_all_failed env size0 { s with size_error_displayed := 1 } dms
    hs1init hs1flag hdms
  have hfin : (run_max_calls env size0 s (dm :: dms)).2 =
      { s with size_error_displayed := 1 } := by
    simp only [run_max_calls, hfirst]
    exact hrun.2
  have htail : (run_max_calls env size0 s (dm :: dms)).1.tail =
      (run_max_calls env size0 { s with size_error_displayed := 1 } dms).1 := by
    simp only [run_max_calls, hfirst, List.tail_cons]
  have hs1pflag : ({ s with size_error_displayed := 1 } : TpmState).submit_error_displayed = 0 :=
    hp0
  have hpfirst := submit_failed_first env dp input_size output_size ibuf obuf
    { s with size_error_displayed := 1 } hin hout hs1init hs1pflag hdp.1 hdp.2
  have hs2 : ({ { s with size_error_displayed := 1 } with submit_error_displayed := 1 } :
      TpmState).init_success ≠ 0 := hinit
  have hs2flag : ({ { s with size_error_displayed := 1 } with submit_error_displayed := 1 } :
      TpmState).submit_error_displayed ≠ 0 := by
    simp
  have hprun := run_submit_all_failed env input_size output_size ibuf obuf
    { { s with size_error_displayed := 1 } with submit_error_displayed := 1 } dps
    hin hout hs2 hs2flag hdps
  have hptail : (run_submit_calls env input_size (some ibuf) output_size (some obuf)
      { s with size_error_displayed := 1 } (dp :: dps)).1.tail =
      (run_submit_calls env input_size (some ibuf) output_size (some obuf)
        { { s with size_error_displayed := 1 } with submit_error_displayed := 1 } dps).1 := by
    simp only [run_submit_calls, hpfirst, List.tail_cons]
  refine ⟨?_, ?_, ?_, ?_, ?_, ?_⟩
  · rw [hfirst]
  · rw [hfirst]
  · rw [htail]
    exact hrun.1
  · rw [hfin, hpfirst]
  · rw [hfin, hpfirst]
  · rw [hfin, hptail]
    exact hprun.1

/-- Witness for claim C2: two failing size queries followed by two failing
    submissions from a freshly initialized state. -/
theorem claim_C2_witness :
    (grub_tcg2_get_max_output_size env_open_fails dm_catch_fail 0 ready_state).err =
      grub_err_t.GRUB_ERR_BAD_DEVICE ∧
    (grub_tcg2_get_max_output_size env_open_fails dm_catch_fail 0 ready_state).warned = true ∧
    (∀ r ∈ (run_max_calls env_open_fails 0 ready_state [dm_catch_fail, dm_catch_fail]).1.tail,
        r.err = grub_err_t.GRUB_ERR_INVALID_COMMAND ∧ r.warned = false) ∧
    (grub_tcg2_submit_command env_open_fails dp_catch_fail 1 (some [1]) 1 (some [0])
        (run_max_calls env_open_fails 0 ready_state [dm_catch_fail, dm_catch_fail]).2).err =
      grub_err_t.GRUB_ERR_BAD_DEVICE ∧
    (grub_tcg2_submit_command env_open_fails dp_catch_fail 1 (some [1]) 1 (some [0])
        (run_max_calls env_open_fails 0 ready_state [dm_catch_fail, dm_catch_fail]).2).warned
      = true ∧
    (∀ r ∈ (run_submit_calls env_open_fails 1 (some [1]) 1 (some [0])
        (run_max_calls env_open_fails 0 ready_state [dm_catch_fail, dm_catch_fail]).2
        [dp_catch_fail, dp_catch_fail]).1.tail,
        r.err = grub_err_t.GRUB_ERR_INVALID_COMMAND ∧ r.warned = false) :=
  claim_C2 env_open_fails ready_state 0 1 1 [1] [0] dm_catch_fail [dm_catch_fail]
    dp_catch_fail [dp_catch_fail] (by decide) (by decide) (by decide) (by decide)
    (by decide) (by decide) (by decide) (by decide) (by decide)

end Tcg2
